import Mathlib

/-!
Verification of the CaseTwin repository (medical-case digital-twin prototype)
against its natural-language specification.

The Python sources are shallowly embedded: pure functions become Lean
functions, network / library calls (the MedGemma model host, `json.loads`,
the `re` regex engine, `hashlib.md5`, `uuid.uuid5`) become explicit oracle
parameters or oracle values, and fallible code returns `Except`/`Option`.
Each embedded definition is annotated with the source file and symbol it
translates.
-/

namespace CaseTwin

/-- A Python/JSON value, as manipulated by the repository's glue code.
Dictionaries are association lists (keys are unique in all dictionaries the
code builds). -/
inductive PyVal : Type where
  | pynone : PyVal
  | pybool (b : Bool) : PyVal
  | pyint (n : Int) : PyVal
  | pystr (s : String) : PyVal
  | pylist (xs : List PyVal) : PyVal
  | pydict (kvs : List (String × PyVal)) : PyVal
deriving Inhabited

/-- Python truthiness: `None`, `False`, `0`, `""`, `[]`, `{}` are falsy. -/
def pyTruthy : PyVal → Bool
  | .pynone => false
  | .pybool b => b
  | .pyint n => n != 0
  | .pystr s => s != ""
  | .pylist xs => !xs.isEmpty
  | .pydict kvs => !kvs.isEmpty

/-- `d.get(k)` on a Python dict: the value at `k`, or `None` when absent. -/
def dGet (kvs : List (String × PyVal)) (k : String) : PyVal :=
  match kvs.find? (fun p => p.1 == k) with
  | some p => p.2
  | none => .pynone

/-- `d.get(k, default)` on a Python dict. -/
def dGetD (kvs : List (String × PyVal)) (k : String) (default : PyVal) : PyVal :=
  match kvs.find? (fun p => p.1 == k) with
  | some p => p.2
  | none => default

/-- Membership of a key in a Python dict. -/
def hasKey (kvs : List (String × PyVal)) (k : String) : Bool :=
  (kvs.find? (fun p => p.1 == k)).isSome

/-- `"needle" in haystack` on Python strings (substring containment). -/
def pyIn (needle haystack : String) : Bool :=
  decide (needle.toList <:+: haystack.toList)

-- ─────────────────────────────────────────────
-- C1: the LangGraph diagnosis pipeline
-- (src/data_pipeline/diagnosis_graph.py, build_diagnosis_graph)
-- ─────────────────────────────────────────────

/-- The LangGraph `END` sentinel node. -/
def endMark : String := "__end__"

/-- The part of a LangGraph `StateGraph` that `build_diagnosis_graph`
exercises: named nodes, directed (unconditional) edges, and an entry point.
The source calls only `add_node`, `add_edge` and `set_entry_point`; it never
adds conditional edges, so the model has none. -/
structure StateGraph where
  nodes : List String := []
  edges : List (String × String) := []
  entryPoint : Option String := none

/-- `graph.add_node(name, fn)` — the node function itself is irrelevant to
the graph's shape. -/
def addNode (g : StateGraph) (name : String) : StateGraph :=
  { g with nodes := g.nodes ++ [name] }

/-- `graph.add_edge(src, dst)`. -/
def addEdge (g : StateGraph) (src dst : String) : StateGraph :=
  { g with edges := g.edges ++ [(src, dst)] }

/-- `graph.set_entry_point(name)`. -/
def setEntryPoint (g : StateGraph) (name : String) : StateGraph :=
  { g with entryPoint := some name }

/-- `build_diagnosis_graph` (diagnosis_graph.py lines 783-801): six nodes,
entry point `load_case`, and the six unconditional edges ending at `END`. -/
def buildDiagnosisGraph : StateGraph :=
  let g : StateGraph := {}
  let g := addNode g "load_case"
  let g := addNode g "load_images"
  let g := addNode g "initial_diagnosis"
  let g := addNode g "bias_check"
  let g := addNode g "alternative_hypotheses"
  let g := addNode g "final_report"
  let g := setEntryPoint g "load_case"
  let g := addEdge g "load_case" "load_images"
  let g := addEdge g "load_images" "initial_diagnosis"
  let g := addEdge g "initial_diagnosis" "bias_check"
  let g := addEdge g "bias_check" "alternative_hypotheses"
  let g := addEdge g "alternative_hypotheses" "final_report"
  let g := addEdge g "final_report" endMark
  g

/-- All targets of edges leaving node `n`. -/
def successors (g : StateGraph) (n : String) : List String :=
  (g.edges.filter (fun e => e.1 == n)).map (·.2)

/-- The unique next node after `n`, when `n` has an outgoing edge. -/
def stepOf (g : StateGraph) (n : String) : Option String :=
  (g.edges.find? (fun e => e.1 == n)).map (·.2)

/-- The node sequence executed from `n` (fuel-bounded; the compiled graph
runs each node then follows its single outgoing edge until `END`). -/
def traceFrom (g : StateGraph) : Nat → String → List String
  | 0, _ => []
  | fuel + 1, n =>
      if n = endMark then []
      else
        n :: (match stepOf g n with
              | some next => traceFrom g fuel next
              | none => [])

/-- The node sequence a `graph.invoke(...)` executes: run from the entry
point, following unconditional edges, until `END`. -/
def executionTrace (g : StateGraph) : List String :=
  match g.entryPoint with
  | some s => traceFrom g (g.nodes.length + 1) s
  | none => []

-- ─────────────────────────────────────────────
-- C2/C3: JSON extraction from model output
-- (src/data_pipeline/diagnosis_graph.py, _extract_json_object and
--  initial_diagnosis_node)
-- ─────────────────────────────────────────────

/-- Indices of all occurrences of `c` in `cs`, in increasing order
(the `re.finditer` over a single-character pattern in
`_extract_json_object`, line 416). -/
def charPositions (c : Char) (cs : List Char) : List Nat :=
  (cs.enum.filter (fun p => p.2 == c)).map (·.1)

/-- The inner brace-matching loop of `_extract_json_object`
(lines 421-432): scan `text[start:]` keeping a depth counter, and return
the prefix ending at the first `}` that brings the depth back to `0`
(`text[start:start + i + 1]`), or `none` when the depth never returns
to `0`. -/
def bracePrefixAux : List Char → Int → List Char → Option (List Char)
  | [], _, _ => none
  | ch :: rest, depth, acc =>
      if ch = '{' then bracePrefixAux rest (depth + 1) (acc ++ [ch])
      else if ch = '}' then
        if depth - 1 = 0 then some (acc ++ [ch])
        else bracePrefixAux rest (depth - 1) (acc ++ [ch])
      else bracePrefixAux rest depth (acc ++ [ch])

/-- The brace-matched prefix of `cs` (depth starts at `0`). -/
def bracePrefix (cs : List Char) : Option (List Char) :=
  bracePrefixAux cs 0 []

/-- One iteration of the candidate loop of `_extract_json_object`
(lines 417-432): try `json.loads(text[start:])`; on `JSONDecodeError`,
try `json.loads` on the brace-matched prefix; a second failure (the
`break`) or an unmatched brace abandons this candidate. `loads` is the
`json.loads` oracle (`none` = `JSONDecodeError`). -/
def braceCandidate (loads : String → Option PyVal) (text : String)
    (start : Nat) : Option PyVal :=
  let tail := text.toList.drop start
  match loads (String.mk tail) with
  | some v => some v
  | none =>
      match bracePrefix tail with
      | some pre => loads (String.mk pre)
      | none => none

/-- Stage 2 of `_extract_json_object` (lines 416-432): try every `{`
position from the last occurrence to the first. -/
def braceScan (loads : String → Option PyVal) (text : String) : Option PyVal :=
  ((charPositions '{' text.toList).reverse).findSome? (braceCandidate loads text)

/-- `_extract_json_object` (diagnosis_graph.py lines 405-439).
Library calls are oracles: `fenced` is the `re.search` result for the
fenced-code-block pattern (capture group 1), `loads` is `json.loads`
(`none` = `JSONDecodeError`), and `prose` is `_extract_text_diagnosis`
(diagnosis_graph.py lines 347-402, a regex-driven prose parser; it returns
its accumulated `result` dict when non-empty and `None` otherwise, and is
represented here by its result).  The function is total by construction,
matching the Python code, which catches every `JSONDecodeError` it can
raise. -/
def extractJsonObject (fenced : String → Option String)
    (loads : String → Option PyVal) (prose : String → Option PyVal)
    (text : String) : Option PyVal :=
  let stage1 : Option PyVal :=
    match fenced text with
    | some g =>
        match loads g with
        | some v => some v
        | none => none
    | none => none
  match stage1 with
  | some v => some v
  | none =>
      match braceScan loads text with
      | some v => some v
      | none =>
          match prose text with
          | some v => some v
          | none => none

/-- The break condition of the retry loop in `initial_diagnosis_node`
(diagnosis_graph.py line 512):
`diagnosis_data is not None and diagnosis_data.get('acute_complication')
or diagnosis_data.get('differentials')`.
Python precedence parses this as `(A and B) or C`; when `diagnosis_data`
is `None`, `A and B` is falsy, so Python evaluates
`None.get('differentials')` and raises `AttributeError`. -/
def diagnosisBreakCond : Option PyVal → Except String Bool
  | some (.pydict kvs) =>
      .ok (pyTruthy (dGet kvs "acute_complication") ||
           pyTruthy (dGet kvs "differentials"))
  | some _ => .error "AttributeError: object has no attribute 'get'"
  | none => .error "AttributeError: 'NoneType' object has no attribute 'get'"

/-- The retry loop of `initial_diagnosis_node` (lines 494-523), with the
MedGemma call as an oracle `responses : Nat → String` (the raw text of the
model's reply on each attempt) and JSON extraction as the `extract`
oracle.  The accumulator carries `(diagnosis_data, response)`; the fuel is
`max_retries = 2`. -/
def diagnosisRetryLoop (extract : String → Option PyVal)
    (responses : Nat → String) :
    Nat → Nat → Option PyVal × String → Except String (Option PyVal × String)
  | _, 0, acc => .ok acc
  | attempt, fuel + 1, _ =>
      let response := responses attempt
      let d := extract response
      match diagnosisBreakCond d with
      | .error e => .error e
      | .ok true => .ok (d, response)
      | .ok false => diagnosisRetryLoop extract responses (attempt + 1) fuel (d, response)

/-- `initial_diagnosis_node` (diagnosis_graph.py lines 471-534), reduced
to its observable result: the diagnosis dict stored into the state (the
source serialises it with `json.dumps`, which we leave as the dict itself)
and the `differential_diagnoses` entry
(`diagnosis_data.get("differentials", [])`).  `.error` marks a point where
the Python code raises. -/
def initialDiagnosisResult (extract : String → Option PyVal)
    (responses : Nat → String) :
    Except String (List (String × PyVal) × PyVal) :=
  match diagnosisRetryLoop extract responses 0 2 (none, "") with
  | .error e => .error e
  | .ok (d, response) =>
      match d with
      | none =>
          let dd := [("raw_response", PyVal.pystr response)]
          .ok (dd, dGetD dd "differentials" (.pylist []))
      | some (.pydict kvs) => .ok (kvs, dGetD kvs "differentials" (.pylist []))
      | some _ => .error "AttributeError: object has no attribute 'get'"

-- ─────────────────────────────────────────────
-- C5/C8: the POST /search handler (src/backend/main.py lines 45-88)
-- ─────────────────────────────────────────────

/-- A FastAPI response from the `/search` handler: either an
`HTTPException(status, detail)` or the success payload
`{"matches": ..., "count": ...}`. -/
inductive HttpResult where
  | httpError (status : Nat) (detail : String)
  | success (results : List PyVal) (count : Nat)

/-- The content types the handler accepts (main.py line 56). -/
def allowedTypes : List String :=
  ["image/jpeg", "image/png", "image/webp", "image/gif"]

/-- The 400 detail for a rejected content type (main.py line 57). -/
def typeErrDetail : String :=
  "Only image files are accepted (jpg, png, webp)."

/-- The 503 detail for an unavailable embedding model (main.py line 79). -/
def wakingUpDetail : String :=
  "The AI image matching model is currently waking up or unavailable. Please try again in about 1-2 minutes."

/-- `parsed_profile` in the handler (main.py lines 65-70): parsed from the
`profile` form field when that is truthy; a parse failure only logs a
warning and leaves it `None`. -/
def parsedProfileOf (loads : String → Option PyVal)
    (profileForm : Option String) : Option PyVal :=
  match profileForm with
  | some p => if p ≠ "" then loads p else none
  | none => none

/-- The `/search` handler (main.py lines 45-88).  Hosted-service calls
are oracles: `readRes` is `file.read()` + `PIL.Image.open` (the error
carries `str(e)`), `loads` is `json.loads` for the profile form field,
`embedRes` is `generate_embedding` (`.error e` = raised with message `e`),
and `searchRes` is `search_similar` as a function of the parsed profile. -/
def searchEndpoint (contentType : String) (profileForm : Option String)
    (readRes : Except String Unit) (loads : String → Option PyVal)
    (embedRes : Except String Nat)
    (searchRes : Nat → Option PyVal → Except String (List PyVal)) :
    HttpResult :=
  if !(allowedTypes.contains contentType) then
    .httpError 400 typeErrDetail
  else
    match readRes with
    | .error e => .httpError 400 ("Could not read image: " ++ e)
    | .ok _ =>
        let parsedProfile := parsedProfileOf loads profileForm
        match embedRes with
        | .error e =>
            if pyIn "503" e || pyIn "Service Unavailable" e then
              .httpError 503 wakingUpDetail
            else
              .httpError 500 ("Embedding generation failed: " ++ e)
        | .ok emb =>
            match searchRes emb parsedProfile with
            | .error e => .httpError 500 ("Qdrant search failed: " ++ e)
            | .ok ms => .success ms ms.length

/-- A fixed string followed by anything cannot equal a string it is not a
prefix of (used to separate the handler's distinct `detail` messages). -/
theorem append_ne_of_not_prefix (s₁ s₂ e : String)
    (h : ¬ s₁.data <+: s₂.data) : s₁ ++ e ≠ s₂ := by
  intro heq
  exact h ⟨e.data, by rw [← String.data_append, heq]⟩

-- ─────────────────────────────────────────────
-- C6: call_gemini (src/data_pipeline/build_schema_dataset.py lines 88-108)
-- ─────────────────────────────────────────────

/-- Python `str.strip()` (whitespace removed from both ends). -/
def pyStrip (s : String) : String :=
  String.mk (((s.toList.dropWhile (·.isWhitespace)).reverse.dropWhile
    (·.isWhitespace)).reverse)

/-- Python `s[:n]` for a non-negative `n`. -/
def pyTake (n : Nat) (s : String) : String := String.mk (s.toList.take n)

/-- The leading-fence strip in `call_gemini` (line 98): the regex
anchored at the start matches three backticks, optionally the word json,
then greedy whitespace, and the match is deleted. -/
def stripFenceStart (s : String) : String :=
  let cs := s.toList
  if cs.take 7 = "```json".toList then
    String.mk ((cs.drop 7).dropWhile (·.isWhitespace))
  else if cs.take 3 = "```".toList then
    String.mk ((cs.drop 3).dropWhile (·.isWhitespace))
  else s

/-- The trailing-fence strip in `call_gemini` (line 99): whitespace
followed by three backticks at the end of the (already stripped) string
is deleted. -/
def stripFenceEnd (s : String) : String :=
  let rcs := s.toList.reverse
  if rcs.take 3 = "```".toList then
    String.mk (((rcs.drop 3).dropWhile (·.isWhitespace)).reverse)
  else s

/-- One attempt's outcome from the hosted Gemini model in `call_gemini`:
`apiError` = `generate_content` (or reading `.text`) raised — rate-limit
or otherwise, both are caught and only change the sleep length; `reply
raw` = the model returned text `raw`. -/
inductive GeminiAttempt where
  | apiError
  | reply (raw : String)

/-- What one attempt contributes: the reply stripped of fences and fed to
`json.loads` (oracle `loads`), or `none` for an API error or a
`JSONDecodeError`. -/
def attemptParse (loads : String → Option PyVal) :
    GeminiAttempt → Option PyVal
  | .apiError => none
  | .reply raw => loads (stripFenceEnd (stripFenceStart (pyStrip raw)))

/-- The attempt loop of `call_gemini`, with structural fuel
(`for attempt in range(4)`); `time.sleep` is a no-op in the model. -/
def callGeminiAux (loads : String → Option PyVal)
    (attempts : Nat → GeminiAttempt) : Nat → Nat → PyVal
  | _, 0 => .pydict []
  | attempt, fuel + 1 =>
      match attemptParse loads (attempts attempt) with
      | some v => v
      | none => callGeminiAux loads attempts (attempt + 1) fuel

/-- `call_gemini` (build_schema_dataset.py lines 88-108): up to 4
attempts; every exception inside the loop is caught (the two `except`
arms cover `JSONDecodeError` and `Exception`), and after the loop the
empty dict is returned.  Total by construction: it never propagates an
error. -/
def callGemini (loads : String → Option PyVal)
    (attempts : Nat → GeminiAttempt) : PyVal :=
  callGeminiAux loads attempts 0 4

-- ─────────────────────────────────────────────
-- C7: analyze_hospital_staff (src/backend/agents.py lines 131-299)
-- ─────────────────────────────────────────────

/-- The output post-processing in `analyze_hospital_staff`
(agents.py lines 282-289): strip, remove a leading ```json or ``` fence
(both prefixes tried in that order on the running string), remove a
trailing ``` fence, and strip again. -/
def stripStaffOutput (s : String) : String :=
  let s := pyStrip s
  let s := if s.startsWith "```json" then s.drop 7 else s
  let s := if s.startsWith "```" then s.drop 3 else s
  let s := if s.endsWith "```" then s.dropRight 3 else s
  pyStrip s

/-- `analyze_hospital_staff` (agents.py lines 131-299), reduced to its
observable result.  `crewResult` is the `crew.kickoff()` oracle (`.error`
= any exception raised during the crew run, `.ok out` = the crew's raw
output string); `loads` is `json.loads`.  The single `try/except` spans
the crew run and the parse, so every failure returns `[]`. -/
def analyzeHospitalStaff (loads : String → Option PyVal)
    (crewResult : Except String String) : List PyVal :=
  match crewResult with
  | .error _ => []
  | .ok out =>
      match loads (stripStaffOutput out) with
      | none => []
      | some (.pylist xs) => xs.take 5
      | some _ => []

-- ─────────────────────────────────────────────
-- Theorems for C1, C2, C3
-- ─────────────────────────────────────────────

/-- C1: the diagnosis graph is a linear six-stage pipeline — the compiled
graph executes exactly `load_case, load_images, initial_diagnosis,
bias_check, alternative_hypotheses, final_report` in that order, with a
single entry point (`load_case`), only the six unconditional edges ending
at `END`, and exactly one outgoing edge per node (no conditional
branches; `build_diagnosis_graph` never calls `add_conditional_edges`). -/
theorem C1_diagnosis_graph_linear :
    executionTrace buildDiagnosisGraph =
      ["load_case", "load_images", "initial_diagnosis", "bias_check",
       "alternative_hypotheses", "final_report"] ∧
    buildDiagnosisGraph.entryPoint = some "load_case" ∧
    buildDiagnosisGraph.edges =
      [("load_case", "load_images"), ("load_images", "initial_diagnosis"),
       ("initial_diagnosis", "bias_check"),
       ("bias_check", "alternative_hypotheses"),
       ("alternative_hypotheses", "final_report"),
       ("final_report", endMark)] ∧
    (∀ n ∈ buildDiagnosisGraph.nodes,
        (successors buildDiagnosisGraph n).length = 1) := by
  refine ⟨rfl, rfl, rfl, ?_⟩
  decide

/-- C1 witness: the single-outgoing-edge property evaluated at the
`load_case` node. -/
theorem C1_diagnosis_graph_linear_witness :
    (successors buildDiagnosisGraph "load_case").length = 1 :=
  C1_diagnosis_graph_linear.2.2.2 "load_case" (by decide)

/-- C2 (failing input): when the model's reply contains no JSON object and
no prose the fallback regexes recognise — for instance the empty string —
`_extract_json_object` returns `None`, and `initial_diagnosis_node` then
raises `AttributeError` evaluating `None.get('differentials')` in its break
condition (line 512), instead of storing `{"raw_response": ...}` as the
claim (and the node's own dead fallback at lines 525-527) describes. -/
theorem C2_initial_diagnosis_attribute_error :
    initialDiagnosisResult
      (extractJsonObject (fun _ => none) (fun _ => none) (fun _ => none))
      (fun _ => "") =
    .error "AttributeError: 'NoneType' object has no attribute 'get'" := rfl

/-- C3: `_extract_json_object` is total (it is a Lean function over total
oracles, matching the Python code, which catches every exception its
parsing can raise) and tries its three stages in a fixed order — the
fenced ```json block, then JSON from each `{` position scanned last to
first (with brace-matched prefixes), then the `_extract_text_diagnosis`
prose fallback — returning `none` exactly when all three fail. -/
theorem C3_extract_json_object_staged (fenced : String → Option String)
    (loads : String → Option PyVal) (prose : String → Option PyVal)
    (text : String) :
    extractJsonObject fenced loads prose text =
      (((fenced text).bind loads).orElse (fun _ =>
        (braceScan loads text).orElse (fun _ => prose text))) ∧
    (extractJsonObject fenced loads prose text = none ↔
      ((fenced text).bind loads = none ∧ braceScan loads text = none ∧
        prose text = none)) := by
  unfold extractJsonObject
  cases hf : fenced text with
  | none =>
      cases hb : braceScan loads text with
      | none => cases hp : prose text <;> simp [Option.orElse, Option.bind]
      | some v => simp [Option.orElse, Option.bind]
  | some g =>
      cases hl : loads g with
      | none =>
          cases hb : braceScan loads text with
          | none => cases hp : prose text <;> simp [Option.orElse, Option.bind, hl]
          | some v => simp [Option.orElse, Option.bind, hl]
      | some v => simp [Option.orElse, Option.bind, hl]

-- ─────────────────────────────────────────────
-- Theorems for C5 and C8
-- ─────────────────────────────────────────────

/-- C5: with an accepted content type and a readable image, `/search`
maps hosted-service failures to HTTP errors exactly as the code fixes
them — an embedding failure whose message contains `503` or
`Service Unavailable` gives 503, any other embedding failure gives 500,
a Qdrant search failure gives 500 — and on success it returns the
matches with `count` equal to their number. -/
theorem C5_search_error_mapping (contentType : String)
    (profileForm : Option String) (loads : String → Option PyVal)
    (embedRes : Except String Nat)
    (searchRes : Nat → Option PyVal → Except String (List PyVal))
    (hct : allowedTypes.contains contentType = true) :
    (∀ e, embedRes = .error e →
      (pyIn "503" e || pyIn "Service Unavailable" e) = true →
      searchEndpoint contentType profileForm (.ok ()) loads embedRes searchRes =
        .httpError 503 wakingUpDetail) ∧
    (∀ e, embedRes = .error e →
      (pyIn "503" e || pyIn "Service Unavailable" e) = false →
      searchEndpoint contentType profileForm (.ok ()) loads embedRes searchRes =
        .httpError 500 ("Embedding generation failed: " ++ e)) ∧
    (∀ emb e, embedRes = .ok emb →
      searchRes emb (parsedProfileOf loads profileForm) = .error e →
      searchEndpoint contentType profileForm (.ok ()) loads embedRes searchRes =
        .httpError 500 ("Qdrant search failed: " ++ e)) ∧
    (∀ emb ms, embedRes = .ok emb →
      searchRes emb (parsedProfileOf loads profileForm) = .ok ms →
      searchEndpoint contentType profileForm (.ok ()) loads embedRes searchRes =
        .success ms ms.length) := by
  refine ⟨?_, ?_, ?_, ?_⟩ <;> intros <;> simp_all [searchEndpoint]

/-- C5 witness: a concrete embedding failure mentioning 503 yields the
503 response. -/
theorem C5_search_error_mapping_witness :
    searchEndpoint "image/jpeg" none (.ok ()) (fun _ => none)
      (.error "503 Service Unavailable") (fun _ _ => .ok []) =
      .httpError 503 wakingUpDetail :=
  (C5_search_error_mapping "image/jpeg" none (fun _ => none)
      (.error "503 Service Unavailable") (fun _ _ => .ok []) (by decide)).1
    "503 Service Unavailable" rfl (by decide)

/-- C8 counterexample: the claim's "rejects an upload with HTTP 400
exactly when the content type is not accepted" fails as a biconditional —
an `image/png` upload (accepted type) whose bytes cannot be decoded is
also rejected with HTTP 400, via the `Could not read image` branch
(main.py line 63). -/
theorem C8_counterexample_read_failure_400 :
    allowedTypes.contains "image/png" = true ∧
    searchEndpoint "image/png" none (.error "broken upload") (fun _ => none)
      (.ok 0) (fun _ _ => .ok []) =
      .httpError 400 ("Could not read image: broken upload") := by
  exact ⟨by decide, rfl⟩

/-- C8 (amended): `/search` issues its content-type rejection — HTTP 400
with the detail naming only jpg, png and webp — exactly when the upload's
content type is not one of image/jpeg, image/png, image/webp, image/gif;
a 400 also occurs when the image bytes cannot be decoded; and an
image/gif upload passes the gate and is processed to a success response
even though the 400 detail omits gif. -/
theorem C8_content_type_gate (contentType : String)
    (profileForm : Option String) (readRes : Except String Unit)
    (loads : String → Option PyVal) (embedRes : Except String Nat)
    (searchRes : Nat → Option PyVal → Except String (List PyVal)) :
    (searchEndpoint contentType profileForm readRes loads embedRes searchRes =
        .httpError 400 typeErrDetail ↔
      allowedTypes.contains contentType = false) ∧
    (∀ e, allowedTypes.contains contentType = true → readRes = .error e →
      searchEndpoint contentType profileForm readRes loads embedRes searchRes =
        .httpError 400 ("Could not read image: " ++ e)) ∧
    allowedTypes.contains "image/gif" = true ∧
    (∀ emb ms, contentType = "image/gif" → readRes = .ok () →
      embedRes = .ok emb →
      searchRes emb (parsedProfileOf loads profileForm) = .ok ms →
      searchEndpoint contentType profileForm readRes loads embedRes searchRes =
        .success ms ms.length) := by
  refine ⟨?_, ?_, by decide, ?_⟩
  · cases hct : allowedTypes.contains contentType with
    | false =>
        simp [searchEndpoint, hct]
        intro hmem
        exact absurd hmem (by simpa using hct)
    | true =>
        simp only [searchEndpoint, hct, Bool.not_true, Bool.false_eq_true,
          if_false]
        constructor
        · intro h
          exfalso
          cases readRes with
          | error e =>
              simp only [HttpResult.httpError.injEq, true_and] at h
              exact append_ne_of_not_prefix "Could not read image: "
                typeErrDetail e (by decide) h
          | ok u =>
              cases embedRes with
              | error e =>
                  by_cases h5 : (pyIn "503" e || pyIn "Service Unavailable" e) = true <;>
                    simp [h5] at h
              | ok emb =>
                  cases hs : searchRes emb (parsedProfileOf loads profileForm) with
                  | error e => simp [hs] at h
                  | ok ms => simp [hs] at h
        · intro h
          simp at h
  · intro e hct hread
    simp [searchEndpoint, hct, hread]
    intro hmem
    exact absurd (by simpa using hct) hmem
  · intro emb ms hcty hread hemb hsearch
    subst hcty hread hemb
    simp [searchEndpoint, hsearch]
    decide

/-- C8 witness: a `text/plain` upload is rejected by the content-type
gate. -/
theorem C8_content_type_gate_witness :
    searchEndpoint "text/plain" none (.ok ()) (fun _ => none) (.ok 0)
      (fun _ _ => .ok []) = .httpError 400 typeErrDetail :=
  (C8_content_type_gate "text/plain" none (.ok ()) (fun _ => none) (.ok 0)
    (fun _ _ => .ok [])).1.mpr (by decide)

-- ─────────────────────────────────────────────
-- Theorems for C6 and C7
-- ─────────────────────────────────────────────

/-- The attempt loop only looks at the `fuel` attempts starting at
`start`. -/
theorem callGeminiAux_congr (loads : String → Option PyVal)
    (a a' : Nat → GeminiAttempt) :
    ∀ fuel start, (∀ i, i < fuel → a (start + i) = a' (start + i)) →
      callGeminiAux loads a start fuel = callGeminiAux loads a' start fuel := by
  intro fuel
  induction fuel with
  | zero => intro start _; rfl
  | succ n ih =>
      intro start h
      have h0 : a start = a' start := by
        have := h 0 (Nat.succ_pos n)
        simpa using this
      show callGeminiAux loads a start (n + 1) = callGeminiAux loads a' start (n + 1)
      unfold callGeminiAux
      rw [h0]
      cases attemptParse loads (a' start) with
      | some v => rfl
      | none =>
          exact ih (start + 1) (fun i hi => by
            have := h (i + 1) (Nat.succ_lt_succ hi)
            simpa [Nat.add_assoc, Nat.add_comm 1 i] using this)

/-- When every inspected attempt fails to produce JSON, the loop falls
through to the empty dict. -/
theorem callGeminiAux_all_fail (loads : String → Option PyVal)
    (a : Nat → GeminiAttempt) :
    ∀ fuel start, (∀ i, i < fuel → attemptParse loads (a (start + i)) = none) →
      callGeminiAux loads a start fuel = .pydict [] := by
  intro fuel
  induction fuel with
  | zero => intro start _; rfl
  | succ n ih =>
      intro start h
      have h0 : attemptParse loads (a start) = none := by
        have := h 0 (Nat.succ_pos n)
        simpa using this
      show callGeminiAux loads a start (n + 1) = .pydict []
      unfold callGeminiAux
      rw [h0]
      exact ih (start + 1) (fun i hi => by
        have := h (i + 1) (Nat.succ_lt_succ hi)
        simpa [Nat.add_assoc, Nat.add_comm 1 i] using this)

/-- C6: `call_gemini` makes at most 4 attempts — its result depends only
on the first 4 attempt outcomes — strips markdown code fences before
parsing, returns the first successfully parsed JSON value, and returns
the empty dict when every attempt fails.  It is total (never propagates
an exception): both `except` arms of the source catch and retry. -/
theorem C6_call_gemini_bounded (loads : String → Option PyVal)
    (attempts attempts' : Nat → GeminiAttempt) :
    ((∀ i, i < 4 → attempts i = attempts' i) →
        callGemini loads attempts = callGemini loads attempts') ∧
    ((∀ i, i < 4 → attemptParse loads (attempts i) = none) →
        callGemini loads attempts = .pydict []) ∧
    (∀ raw v, attempts 0 = .reply raw →
        loads (stripFenceEnd (stripFenceStart (pyStrip raw))) = some v →
        callGemini loads attempts = v) := by
  refine ⟨?_, ?_, ?_⟩
  · intro h
    exact callGeminiAux_congr loads attempts attempts' 4 0 (fun i hi => by
      simpa using h i hi)
  · intro h
    exact callGeminiAux_all_fail loads attempts 4 0 (fun i hi => by
      simpa using h i hi)
  · intro raw v h0 hv
    show callGeminiAux loads attempts 0 4 = v
    unfold callGeminiAux
    rw [show attemptParse loads (attempts 0) = some v by
      rw [h0]; exact hv]

/-- C6 witness: four failing attempts produce the empty dict. -/
theorem C6_call_gemini_bounded_witness :
    callGemini (fun _ => none) (fun _ => .apiError) = .pydict [] :=
  (C6_call_gemini_bounded (fun _ => none) (fun _ => .apiError)
      (fun _ => .apiError)).2.1 (fun _ _ => rfl)

/-- C7: `analyze_hospital_staff` always returns a plain list of at most
5 entries — the first 5 elements when the crew's fence-stripped output
parses as a JSON list, and `[]` on a parse failure, a non-list parse
result, or any exception raised during the crew run. -/
theorem C7_analyze_staff_bounded (loads : String → Option PyVal)
    (crewResult : Except String String) :
    (analyzeHospitalStaff loads crewResult).length ≤ 5 ∧
    (∀ e, crewResult = .error e → analyzeHospitalStaff loads crewResult = []) ∧
    (∀ out xs, crewResult = .ok out →
        loads (stripStaffOutput out) = some (.pylist xs) →
        analyzeHospitalStaff loads crewResult = xs.take 5) ∧
    (∀ out, crewResult = .ok out → loads (stripStaffOutput out) = none →
        analyzeHospitalStaff loads crewResult = []) ∧
    (∀ out v, crewResult = .ok out → loads (stripStaffOutput out) = some v →
        (∀ ys, v ≠ .pylist ys) →
        analyzeHospitalStaff loads crewResult = []) := by
  refine ⟨?_, ?_, ?_, ?_, ?_⟩
  · cases crewResult with
    | error e => simp [analyzeHospitalStaff]
    | ok out =>
        cases hl : loads (stripStaffOutput out) with
        | none => simp [analyzeHospitalStaff, hl]
        | some v =>
            cases v <;> simp [analyzeHospitalStaff, hl, List.length_take]
  · intro e h; subst h; rfl
  · intro out xs h hl; subst h; simp [analyzeHospitalStaff, hl]
  · intro out h hl; subst h; simp [analyzeHospitalStaff, hl]
  · intro out v h hl hne
    subst h
    cases v with
    | pylist ys => exact absurd rfl (hne ys)
    | pynone => simp [analyzeHospitalStaff, hl]
    | pybool b => simp [analyzeHospitalStaff, hl]
    | pyint n => simp [analyzeHospitalStaff, hl]
    | pystr s => simp [analyzeHospitalStaff, hl]
    | pydict kvs => simp [analyzeHospitalStaff, hl]

/-- C7 witness: a crew exception yields the empty list. -/
theorem C7_analyze_staff_bounded_witness :
    analyzeHospitalStaff (fun _ => none) (.error "crew failed") = [] :=
  (C7_analyze_staff_bounded (fun _ => none) (.error "crew failed")).2.1
    "crew failed" rfl

-- ─────────────────────────────────────────────
-- C9: bounding boxes in /compare_insights
-- (src/backend/main.py lines 141-221 and 276-280)
-- ─────────────────────────────────────────────

/-- A bounding box `[ymin, xmin, ymax, xmax]` as the handler returns it. -/
abbrev Box := List Int

/-- `parse_box` (main.py lines 142-146) captures four decimal-digit
groups, so a successful parse is four natural numbers. -/
def boxOfParse : Nat × Nat × Nat × Nat → Box
  | (a, b, c, d) => [(a : Int), (b : Int), (c : Int), (d : Int)]

/-- The bounding-box fallback and assembly of `/compare_insights`
(main.py lines 190-218, returned at lines 276-280).  `h` is the value of
the first 8 hex digits of `md5(diagnosis + "-" + url)` (the `hashlib`
oracle, a natural number below 16^8); `origParse` and `matchParse` are
the `parse_box` results of the two MedGemma queries — `none` uniformly
covers a raised call, an unparseable reply, and the missing-match-image
case, all of which leave the Python variable `None`.  `parse_box` never
yields an empty list, so Python's `not box` is exactly `none` here. -/
def computeBoxes (h : Nat) (origParse matchParse : Option (Nat × Nat × Nat × Nat)) :
    Box × Box :=
  match origParse, matchParse with
  | some ob, some mb => (boxOfParse ob, boxOfParse mb)
  | _, _ =>
      let yc : Int := 200 + (h % 500 : Nat)
      let xc : Int := 200 + ((h / 500) % 500 : Nat)
      let bs : Int := 150 + (h % 200 : Nat)
      let origBox : Box :=
        match origParse with
        | some ob => boxOfParse ob
        | none => [max 0 (yc - bs / 2), max 0 (xc - bs / 2),
                   min 1000 (yc + bs / 2), min 1000 (xc + bs / 2)]
      let matchBox : Box :=
        match matchParse with
        | some mb => boxOfParse mb
        | none =>
            let ys : Int := -50 + (h % 100 : Nat)
            let xs : Int := -50 + ((h / 100) % 100 : Nat)
            [max 0 (origBox.getD 0 0 + ys), max 0 (origBox.getD 1 0 + xs),
             min 1000 (origBox.getD 2 0 + ys), min 1000 (origBox.getD 3 0 + xs)]
      (origBox, matchBox)

/-- C9 counterexample: the claim's "four non-negative integers" fails.
When the model returns the parseable box `[0, 0, 0, 0]` for the original
image, the match parse fails, and the md5-derived hash value `h`
satisfies `h % 100 < 50` (here `h = 0`, i.e. a digest starting
`00000000`; about half of all digests qualify), the shifted match-box
fallback produces the negative coordinates `-50`: `min(1000, 0 + (-50))`
is not clamped from below. -/
theorem C9_counterexample_negative_match_box :
    computeBoxes 0 (some (0, 0, 0, 0)) none = ([0, 0, 0, 0], [0, 0, -50, -50]) ∧
    ¬ (0 : Int) ≤ -50 := by
  exact ⟨rfl, by decide⟩

/-- C9 (amended): every successful `/compare_insights` response carries
both boxes, each a list of exactly four integers; the original box is
always non-negative, and fully clamped to `[0, 1000]` when it comes from
the hash fallback; the match-box fallback has its first two coordinates
clamped to `≥ 0` and its last two to `≤ 1000`, and lies entirely within
`[0, 1000]` when the original box also came from the fallback — but when
the original box came from the model, the match fallback's last two
coordinates can be negative. -/
theorem C9_boxes_amended (h : Nat)
    (origParse matchParse : Option (Nat × Nat × Nat × Nat)) :
    (computeBoxes h origParse matchParse).1.length = 4 ∧
    (computeBoxes h origParse matchParse).2.length = 4 ∧
    (∀ x ∈ (computeBoxes h origParse matchParse).1, 0 ≤ x) ∧
    (origParse = none →
      ∀ x ∈ (computeBoxes h origParse matchParse).1, 0 ≤ x ∧ x ≤ 1000) ∧
    (matchParse = none →
      0 ≤ (computeBoxes h origParse matchParse).2.getD 0 0 ∧
      0 ≤ (computeBoxes h origParse matchParse).2.getD 1 0 ∧
      (computeBoxes h origParse matchParse).2.getD 2 0 ≤ 1000 ∧
      (computeBoxes h origParse matchParse).2.getD 3 0 ≤ 1000) ∧
    (origParse = none → matchParse = none →
      ∀ x ∈ (computeBoxes h origParse matchParse).2, 0 ≤ x ∧ x ≤ 1000) ∧
    (∀ mb, matchParse = some mb →
      (computeBoxes h origParse matchParse).2 = boxOfParse mb) := by
  have h500 : (h % 500 : Int) < 500 := by
    exact_mod_cast Nat.mod_lt h (by norm_num)
  have h500' : (0 : Int) ≤ (h % 500 : Nat) := Int.ofNat_nonneg _
  have h200 : (h % 200 : Int) < 200 := by
    exact_mod_cast Nat.mod_lt h (by norm_num)
  have h200' : (0 : Int) ≤ (h % 200 : Nat) := Int.ofNat_nonneg _
  have h100 : (h % 100 : Int) < 100 := by
    exact_mod_cast Nat.mod_lt h (by norm_num)
  have h100' : (0 : Int) ≤ (h % 100 : Nat) := Int.ofNat_nonneg _
  have hd500 : ((h / 500) % 500 : Int) < 500 := by
    exact_mod_cast Nat.mod_lt (h / 500) (by norm_num)
  have hd500' : (0 : Int) ≤ ((h / 500) % 500 : Nat) := Int.ofNat_nonneg _
  have hd100 : ((h / 100) % 100 : Int) < 100 := by
    exact_mod_cast Nat.mod_lt (h / 100) (by norm_num)
  have hd100' : (0 : Int) ≤ ((h / 100) % 100 : Nat) := Int.ofNat_nonneg _
  cases origParse with
  | some ob =>
      obtain ⟨a, b, c, d⟩ := ob
      cases matchParse with
      | some mb =>
          obtain ⟨a', b', c', d'⟩ := mb
          refine ⟨rfl, rfl, ?_, ?_, ?_, ?_, ?_⟩
          · intro x hx
            simp [computeBoxes, boxOfParse] at hx
            rcases hx with rfl | rfl | rfl | rfl <;> exact Int.ofNat_nonneg _
          · intro hcontra; cases hcontra
          · intro hcontra; cases hcontra
          · intro hcontra; cases hcontra
          · intro mb hmb
            injection hmb with hmb
            subst hmb
            rfl
      | none =>
          refine ⟨rfl, rfl, ?_, ?_, ?_, ?_, ?_⟩
          · intro x hx
            simp [computeBoxes, boxOfParse] at hx
            rcases hx with rfl | rfl | rfl | rfl <;> exact Int.ofNat_nonneg _
          · intro hcontra; cases hcontra
          · intro _
            refine ⟨?_, ?_, ?_, ?_⟩ <;>
              simp [computeBoxes, boxOfParse]
          · intro hcontra; cases hcontra
          · intro mb hmb; cases hmb
  | none =>
      cases matchParse with
      | some mb =>
          obtain ⟨a', b', c', d'⟩ := mb
          refine ⟨rfl, rfl, ?_, ?_, ?_, ?_, ?_⟩
          · intro x hx
            simp [computeBoxes] at hx
            rcases hx with rfl | rfl | rfl | rfl <;> omega
          · intro _ x hx
            simp [computeBoxes] at hx
            rcases hx with rfl | rfl | rfl | rfl <;> constructor <;> omega
          · intro hcontra; cases hcontra
          · intro _ hcontra; cases hcontra
          · intro mb hmb
            injection hmb with hmb
            subst hmb
            rfl
      | none =>
          refine ⟨rfl, rfl, ?_, ?_, ?_, ?_, ?_⟩
          · intro x hx
            simp [computeBoxes] at hx
            rcases hx with rfl | rfl | rfl | rfl <;> omega
          · intro _ x hx
            simp [computeBoxes] at hx
            rcases hx with rfl | rfl | rfl | rfl <;> constructor <;> omega
          · intro _
            refine ⟨?_, ?_, ?_, ?_⟩ <;> simp [computeBoxes]
          · intro _ _ x hx
            simp [computeBoxes] at hx
            rcases hx with rfl | rfl | rfl | rfl <;> constructor <;> omega
          · intro mb hmb; cases hmb

/-- C9 witness: the amended bounds evaluated on the all-fallback case at
hash value 0. -/
theorem C9_boxes_amended_witness :
    (0 : Int) ≤ (computeBoxes 0 none none).2.getD 2 0 ∧
    (computeBoxes 0 none none).2.getD 2 0 ≤ 1000 :=
  (C9_boxes_amended 0 none none).2.2.2.2.2.1 rfl rfl
    ((computeBoxes 0 none none).2.getD 2 0) (by decide)

-- ─────────────────────────────────────────────
-- C4: the /extract CaseProfile builder
-- (src/backend/main.py lines 871-897 `extract` and 900-1252
--  `_extract_profile`)
-- ─────────────────────────────────────────────

/-- An optional string as a Python value. -/
def strOrNone : Option String → PyVal
  | some s => .pystr s
  | none => .pynone

/-- `d[k] = v` on a Python dict: replace in place, or append when the key
is new. -/
def setKey (kvs : List (String × PyVal)) (k : String) (v : PyVal) :
    List (String × PyVal) :=
  if hasKey kvs k then kvs.map (fun p => if p.1 == k then (k, v) else p)
  else kvs ++ [(k, v)]

/-- The comorbidity label map of `_extract_profile` (main.py lines
1037-1050), second components, in source order. -/
def comorbidityMap : List String :=
  ["hypertension", "type 2 diabetes", "type 1 diabetes",
   "atrial fibrillation", "heart failure", "COPD", "asthma",
   "liver cirrhosis", "hepatocellular carcinoma",
   "chronic kidney disease", "coronary artery disease", "obesity"]

/-- The primary-diagnosis map (main.py lines 1100-1110), second
components, in source order. -/
def diagMap : List String :=
  ["scimitar syndrome", "community-acquired pneumonia",
   "pulmonary embolism", "lung malignancy", "acute ischemic stroke",
   "heart failure", "pneumothorax", "pleural effusion",
   "aortic dissection"]

/-- The outcome of every `re.search` in `_extract_profile` against the
request's notes text (and, where the source says so, the text combined
with image names or the MedGemma insight).  Each field is one regex
oracle: a `Bool` for a pure hit test, an `Option` for a captured group.
Indexed predicates stand for the per-entry patterns of the comorbidity
and diagnosis maps.  Defaults are the no-match outcome, which is the
concrete truth for an empty notes text (every pattern there needs at
least one character). -/
structure NotesMatches where
  ageM : Option Nat := none
  female : Bool := false
  male : Bool := false
  immuno : Bool := false
  comorbHit : Nat → Bool := fun _ => false
  noKnownAllerg : Bool := false
  ccM : Option String := none
  durM : Option String := none
  ctScan : Bool := false
  mri : Bool := false
  xray : Bool := false
  thorax : Bool := false
  abdomen : Bool := false
  headRegion : Bool := false
  paView : Bool := false
  apView : Bool := false
  diagHit : Nat → Bool := fun _ => false
  urgent : Bool := false
  routineSched : Bool := false
  infect : Bool := false
  icu : Bool := false
  consolidation : Bool := false
  atelectasis : Bool := false
  edema : Bool := false
  effusion : Bool := false
  pneumoT : Bool := false
  cardiomegaly : Bool := false
  smokeM : Option (Option String) := none
  nonSmoker : Bool := false
  alcoholM : Option String := none
  bmiM : Option String := none
  heightM : Option String := none
  bloodM : Option String := none
  famM : Option String := none
  occM : Option String := none
  ethM : Option String := none
  vaxM : Option String := none
  travelM : Option String := none
  funcM : Option String := none
  codeM : Option String := none
  socialM : Option String := none

/-- The all-defaults outcome: no regex matched (concretely the case for
an empty notes text, no images and no MedGemma insight). -/
def emptyNotesMatches : NotesMatches := {}

/-- The matched comorbidity labels, in map order (main.py line 1051). -/
def comorbiditiesOf (o : NotesMatches) : List String :=
  (comorbidityMap.enum.filter (fun p => o.comorbHit p.1)).map (·.2)

/-- The first matched diagnosis label (the loop with `break`, main.py
lines 1111-1115). -/
def firstDiagOf (o : NotesMatches) : Option String :=
  (diagMap.enum.find? (fun p => o.diagHit p.1)).map (·.2)

/-- The `patient` section: skeleton defaults (main.py lines 933-941)
overridden by the patient regex block (lines 1022-1055). -/
def patientSection (text : String) (o : NotesMatches) :
    List (String × PyVal) :=
  [("age_years", match o.ageM with | some n => .pyint n | none => .pynone),
   ("sex", if o.female then .pystr "female"
           else if o.male then .pystr "male" else .pynone),
   ("immunocompromised",
     if o.immuno then .pystr "yes"
     else if pyStrip text ≠ "" then .pystr "no" else .pynone),
   ("weight_kg", .pynone),
   ("comorbidities", .pylist ((comorbiditiesOf o).map .pystr)),
   ("medications", .pylist []),
   ("allergies",
     if o.noKnownAllerg then .pystr "no known allergies" else .pynone)]

/-- The `presentation` section: skeleton defaults (lines 942-947)
overridden by lines 1057-1073. -/
def presentationSection (text : String) (o : NotesMatches) :
    List (String × PyVal) :=
  [("chief_complaint",
     match o.ccM with | some cc => .pystr (pyStrip cc) | none => .pynone),
   ("symptom_duration",
     match o.durM with | some d => .pystr (pyStrip d) | none => .pynone),
   ("hpi", if text.length > 40 then .pystr (pyTake 600 text) else .pynone),
   ("pmh", if comorbiditiesOf o ≠ [] then
             .pystr (String.intercalate ", " (comorbiditiesOf o))
           else .pynone)]

/-- The `study` section: skeleton defaults (lines 948-958) overridden by
lines 1075-1097 (modality on the text-plus-image-names string, body
region and view on the text). -/
def studySection (o : NotesMatches) (imageNames : List String) :
    List (String × PyVal) :=
  let modality :=
    if o.ctScan then (some "CT", some "radiology", some "ct")
    else if o.mri then (some "MRI", some "radiology", some "mri")
    else if o.xray then (some "CXR", some "radiology", some "x_ray")
    else if imageNames ≠ [] then (some "Imaging", some "radiology", none)
    else (none, none, none)
  let region :=
    if o.thorax then (some "thorax", some "thorax")
    else if o.abdomen then (some "abdomen", none)
    else if o.headRegion then (some "head", none)
    else (none, none)
  [("modality", strOrNone modality.1),
   ("body_region", strOrNone region.1),
   ("view_position",
     if o.paView then .pystr "PA"
     else if o.apView then .pystr "AP" else .pynone),
   ("radiology_region", strOrNone region.2),
   ("caption", .pynone),
   ("image_type", strOrNone modality.2.1),
   ("image_subtype", strOrNone modality.2.2),
   ("image_url", .pynone),
   ("storage_path", .pynone)]

/-- The `assessment` section: skeleton defaults (lines 959-966)
overridden by lines 1099-1129.  `infectious_concern` and `icu_candidate`
are always overwritten with `"yes"`/`"no"` (lines 1124-1129). -/
def assessmentSection (text : String) (o : NotesMatches) :
    List (String × PyVal) :=
  let diag := firstDiagOf o
  [("diagnosis_primary", strOrNone diag),
   ("suspected_primary",
     match diag with
     | some d => .pylist (((d :: (comorbiditiesOf o).take 2)).map .pystr)
     | none => .pylist []),
   ("differential", .pylist []),
   ("urgency",
     if o.urgent then .pystr "emergent"
     else if o.routineSched then .pystr "routine"
     else if pyStrip text ≠ "" then .pystr "semi-urgent" else .pynone),
   ("infectious_concern", .pystr (if o.infect then "yes" else "no")),
   ("icu_candidate", .pystr (if o.icu then "yes" else "no"))]

/-- The `findings` section: skeleton defaults (lines 967-992) with the
six yes-flags of lines 1137-1148 (matched against the text combined with
the MedGemma insight). -/
def findingsSection (o : NotesMatches) : List (String × PyVal) :=
  [("lungs", .pydict [
     ("consolidation_present", .pystr (if o.consolidation then "yes" else "no")),
     ("consolidation_locations", .pylist []),
     ("consolidation_extent", .pystr "unknown"),
     ("atelectasis_present", .pystr (if o.atelectasis then "yes" else "no")),
     ("atelectasis_locations", .pylist []),
     ("edema_present", .pystr (if o.edema then "yes" else "no")),
     ("edema_pattern", .pystr "unknown")]),
   ("pleura", .pydict [
     ("effusion_present", .pystr (if o.effusion then "yes" else "no")),
     ("effusion_side", .pystr "unknown"),
     ("effusion_size", .pystr "unknown"),
     ("pneumothorax_present", .pystr (if o.pneumoT then "yes" else "no")),
     ("pneumothorax_side", .pystr "unknown")]),
   ("cardiomediastinal", .pydict [
     ("cardiomegaly", .pystr (if o.cardiomegaly then "yes" else "no")),
     ("mediastinal_widening", .pystr "no")]),
   ("devices", .pydict [
     ("lines_tubes_present", .pystr "no"),
     ("device_list", .pylist [])])]

/-- The `summary` section: the MedGemma one-liner step (lines 1150-1151,
which fires exactly when the insight is non-empty, since the skeleton
one-liner is still `None` there) followed by the formatted override and
key points of lines 1153-1164. -/
def summarySection (o : NotesMatches) (insight : String) :
    List (String × PyVal) :=
  let comorbs := comorbiditiesOf o
  let diag := firstDiagOf o
  let cc := o.ccM.map pyStrip
  let ageTruthy := match o.ageM with | some n => decide (n ≠ 0) | none => false
  let sexSet := o.female || o.male
  let ccTruthy := match cc with | some c => decide (c ≠ "") | none => false
  let insightLine : PyVal :=
    if insight ≠ "" then
      .pystr (pyTake 200 insight ++ (if insight.length > 200 then "..." else ""))
    else .pynone
  let oneLiner : PyVal :=
    if ageTruthy && sexSet && (diag.isSome || ccTruthy) then
      let ageStr := toString ((o.ageM).getD 0)
      let sexStr := if o.female then "female" else "male"
      let comorbsStr :=
        if comorbs.take 3 ≠ [] then String.intercalate ", " (comorbs.take 3)
        else "multiple comorbidities"
      let ccOrDiag := if ccTruthy then cc.getD "" else diag.getD "None"
      .pystr (ageStr ++ "-year-old " ++ sexStr ++ " with " ++ comorbsStr ++
              " presenting with " ++ ccOrDiag ++ ".")
    else insightLine
  [("one_liner", oneLiner),
   ("key_points",
     match diag with
     | some d => .pylist [.pystr ("Primary finding: " ++ d)]
     | none => .pylist []),
   ("red_flags", .pylist [])]

/-- The fixed `outcome` section of the skeleton (lines 998-1001). -/
def outcomeSection : List (String × PyVal) :=
  [("success", .pynone), ("detail", .pynone)]

/-- The fixed `provenance` section of the skeleton (lines 1002-1013). -/
def provenanceSection : List (String × PyVal) :=
  [("dataset_name", .pynone), ("pmc_id", .pynone), ("pmid", .pynone),
   ("doi", .pynone), ("article_title", .pynone), ("journal", .pynone),
   ("year", .pynone), ("authors", .pylist []), ("license", .pynone),
   ("source_url", .pynone)]

/-- The fixed `tags` section of the skeleton (lines 1014-1019). -/
def tagsSection : List (String × PyVal) :=
  [("ml_labels", .pylist []), ("gt_labels", .pylist []),
   ("keywords", .pylist []), ("mesh_terms", .pylist [])]

/-- The `extra_fields` block (lines 1166-1250): each capture is inserted
in source order; `non-smoker` overwrites a prior smoking status, and
`height` is only added when no BMI was captured. -/
def extraFieldsOf (o : NotesMatches) : List (String × PyVal) :=
  let ef : List (String × PyVal) := []
  let ef := match o.smokeM with
    | some detail =>
        let v := match detail with
          | some d => if pyStrip d ≠ "" then pyStrip d else "smoker"
          | none => "smoker"
        setKey ef "smoking_status" (.pystr v)
    | none => ef
  let ef := if o.nonSmoker then setKey ef "smoking_status" (.pystr "non-smoker") else ef
  let ef := match o.alcoholM with
    | some a => setKey ef "alcohol_use" (.pystr (pyTake 120 (pyStrip a)))
    | none => ef
  let ef := match o.bmiM with
    | some b => setKey ef "bmi" (.pystr b)
    | none => ef
  let ef := match o.heightM with
    | some hgt => if o.bmiM = none then setKey ef "height" (.pystr hgt) else ef
    | none => ef
  let ef := match o.bloodM with
    | some bl => setKey ef "blood_type" (.pystr bl.toUpper)
    | none => ef
  let ef := match o.famM with
    | some f => setKey ef "family_history" (.pystr (pyTake 200 (pyStrip f)))
    | none => ef
  let ef := match o.occM with
    | some oc => setKey ef "occupation" (.pystr (pyTake 120 (pyStrip oc)))
    | none => ef
  let ef := match o.ethM with
    | some et => setKey ef "ethnicity" (.pystr (pyTake 60 (pyStrip et)))
    | none => ef
  let ef := match o.vaxM with
    | some v => setKey ef "vaccination" (.pystr (pyTake 120 (pyStrip v)))
    | none => ef
  let ef := match o.travelM with
    | some t => setKey ef "travel_history" (.pystr (pyTake 150 (pyStrip t)))
    | none => ef
  let ef := match o.funcM with
    | some fn => setKey ef "functional_status" (.pystr (pyTake 120 (pyStrip fn)))
    | none => ef
  let ef := match o.codeM with
    | some cd => setKey ef "code_status" (.pystr (pyTake 80 (pyStrip cd)))
    | none => ef
  let ef := match o.socialM with
    | some sc => setKey ef "social_history" (.pystr (pyTake 250 (pyStrip sc)))
    | none => ef
  ef

/-- `_extract_profile` (main.py lines 900-1252): the skeleton dict with
every section updated as the source does.  `text` is the merged notes
text, `o` the regex outcomes against it, `imageNames` the uploaded image
filenames, `insight` the MedGemma analysis text (empty on no images or
any model failure), and `caseId`/`imageId` the two `uuid.uuid4()`
oracles. -/
def extractProfile (text : String) (o : NotesMatches)
    (imageNames : List String) (insight : String)
    (caseId imageId : String) : List (String × PyVal) :=
  [("profile_id", .pystr (caseId ++ ":" ++ imageId)),
   ("case_id", .pystr caseId),
   ("image_id", .pystr imageId),
   ("patient", .pydict (patientSection text o)),
   ("presentation", .pydict (presentationSection text o)),
   ("study", .pydict (studySection o imageNames)),
   ("assessment", .pydict (assessmentSection text o)),
   ("findings", .pydict (findingsSection o)),
   ("summary", .pydict (summarySection o insight)),
   ("outcome", .pydict outcomeSection),
   ("provenance", .pydict provenanceSection),
   ("tags", .pydict tagsSection),
   ("extra_fields", .pydict (extraFieldsOf o))]

/-- The merged notes text of the `/extract` handler (main.py lines
887-894): the form `notes` plus, when a notes file was uploaded and
decodes, its text after a newline, the whole stripped. -/
def notesTextOf (notes : String) (fileText : Option String) : String :=
  match fileText with
  | some t => pyStrip (notes ++ "\n" ++ t)
  | none => notes

/-- The `/extract` handler (main.py lines 871-897): the response body
wraps the profile under the `profile` key. -/
def extractEndpoint (notes : String) (fileText : Option String)
    (o : NotesMatches) (imageNames : List String) (insight : String)
    (caseId imageId : String) : List (String × PyVal) :=
  [("profile", .pydict (extractProfile (notesTextOf notes fileText) o
      imageNames insight caseId imageId))]

/-- Nested lookup `d[k1][k2]` (for reading the built profile). -/
def dGet2 (kvs : List (String × PyVal)) (k1 k2 : String) : PyVal :=
  match dGet kvs k1 with
  | .pydict inner => dGet inner k2
  | _ => .pynone

/-- Triple-nested lookup `d[k1][k2][k3]`. -/
def dGet3 (kvs : List (String × PyVal)) (k1 k2 k3 : String) : PyVal :=
  match dGet2 kvs k1 k2 with
  | .pydict inner => dGet inner k3
  | _ => .pynone

/-- Whether a value is Python `None` or an empty list. -/
def isNoneOrEmptyList : PyVal → Bool
  | .pynone => true
  | .pylist [] => true
  | _ => false

/-- C4 counterexample: the claim's "fields defaulting to None/empty lists
when nothing is extracted" fails — on a request with empty notes, no
images and no insight, `assessment.infectious_concern` is the string
`"no"` (main.py lines 1124-1126 always write `"yes"`/`"no"`), and
`findings.lungs.consolidation_present` is likewise the string `"no"`,
neither `None` nor an empty list. -/
theorem C4_counterexample_string_defaults :
    dGet2 (extractProfile "" emptyNotesMatches [] "" "c" "i")
      "assessment" "infectious_concern" = .pystr "no" ∧
    isNoneOrEmptyList (.pystr "no") = false ∧
    dGet3 (extractProfile "" emptyNotesMatches [] "" "c" "i")
      "findings" "lungs" "consolidation_present" = .pystr "no" := by
  exact ⟨rfl, rfl, rfl⟩

/-- C4 (amended): every `/extract` response's profile — for any
combination of images, notes and notes file, including all empty —
contains the four CaseProfile sections `patient`, `presentation`,
`findings` and `assessment` as structured sub-records; when nothing is
extracted from the notes text, patient and presentation fields default
to None or empty lists, `assessment.diagnosis_primary` and `urgency` to
None and its lists to empty, while the findings flags and the
`infectious_concern`/`icu_candidate` flags default to the fixed strings
`"no"`/`"unknown"`. -/
theorem C4_profile_sections_and_defaults (notes : String)
    (fileText : Option String) (o : NotesMatches) (imageNames : List String)
    (insight : String) (caseId imageId : String) :
    (dGet (extractEndpoint notes fileText o imageNames insight caseId imageId)
        "profile" =
      .pydict (extractProfile (notesTextOf notes fileText) o imageNames
        insight caseId imageId)) ∧
    (dGet (extractProfile (notesTextOf notes fileText) o imageNames insight
        caseId imageId) "patient" =
      .pydict (patientSection (notesTextOf notes fileText) o)) ∧
    (dGet (extractProfile (notesTextOf notes fileText) o imageNames insight
        caseId imageId) "presentation" =
      .pydict (presentationSection (notesTextOf notes fileText) o)) ∧
    (dGet (extractProfile (notesTextOf notes fileText) o imageNames insight
        caseId imageId) "findings" = .pydict (findingsSection o)) ∧
    (dGet (extractProfile (notesTextOf notes fileText) o imageNames insight
        caseId imageId) "assessment" =
      .pydict (assessmentSection (notesTextOf notes fileText) o)) ∧
    (dGet2 (extractProfile "" emptyNotesMatches [] "" caseId imageId)
        "patient" "age_years" = .pynone) ∧
    (dGet2 (extractProfile "" emptyNotesMatches [] "" caseId imageId)
        "patient" "sex" = .pynone) ∧
    (dGet2 (extractProfile "" emptyNotesMatches [] "" caseId imageId)
        "patient" "immunocompromised" = .pynone) ∧
    (dGet2 (extractProfile "" emptyNotesMatches [] "" caseId imageId)
        "patient" "comorbidities" = .pylist []) ∧
    (dGet2 (extractProfile "" emptyNotesMatches [] "" caseId imageId)
        "patient" "medications" = .pylist []) ∧
    (dGet2 (extractProfile "" emptyNotesMatches [] "" caseId imageId)
        "patient" "allergies" = .pynone) ∧
    (dGet2 (extractProfile "" emptyNotesMatches [] "" caseId imageId)
        "presentation" "chief_complaint" = .pynone) ∧
    (dGet2 (extractProfile "" emptyNotesMatches [] "" caseId imageId)
        "presentation" "hpi" = .pynone) ∧
    (dGet2 (extractProfile "" emptyNotesMatches [] "" caseId imageId)
        "assessment" "diagnosis_primary" = .pynone) ∧
    (dGet2 (extractProfile "" emptyNotesMatches [] "" caseId imageId)
        "assessment" "suspected_primary" = .pylist []) ∧
    (dGet2 (extractProfile "" emptyNotesMatches [] "" caseId imageId)
        "assessment" "urgency" = .pynone) ∧
    (dGet2 (extractProfile "" emptyNotesMatches [] "" caseId imageId)
        "assessment" "infectious_concern" = .pystr "no") ∧
    (dGet2 (extractProfile "" emptyNotesMatches [] "" caseId imageId)
        "assessment" "icu_candidate" = .pystr "no") ∧
    (dGet3 (extractProfile "" emptyNotesMatches [] "" caseId imageId)
        "findings" "pleura" "effusion_present" = .pystr "no") ∧
    (dGet (extractProfile "" emptyNotesMatches [] "" caseId imageId)
        "extra_fields" = .pydict []) := by
  refine ⟨rfl, rfl, rfl, rfl, rfl, rfl, rfl, rfl, rfl, rfl, rfl, rfl, rfl,
    rfl, rfl, rfl, rfl, rfl, rfl, rfl⟩

-- ─────────────────────────────────────────────
-- C10: deterministic dataset identifiers
-- (src/data_pipeline/build_schema_dataset.py, build_record, and
--  src/data_pipeline/transform_to_schema.py, build_image_entry)
-- ─────────────────────────────────────────────

/-- An image record of `cxr_full_dataset/dataset.json`, as the two
builders read it through `.get`: `fileIdKey` is the value under
`file_id` when that key is present; string-valued fields carry their
`.get` defaults. -/
structure SrcImage where
  fileIdKey : Option String := none
  file : String := ""
  localImagePath : String := ""
  imageType : String := ""
  imageSubtype : String := ""
  isChestXray : Bool := false
  radiologyView : Option String := none
  radiologyRegion : Option String := none
  caption : String := ""
  textReferences : List PyVal := []
  mlLabels : PyVal := .pystr ""
  gtLabels : PyVal := .pystr ""

/-- A case entry of a source record. -/
structure SrcCase where
  age : PyVal := .pynone
  gender : Option String := none
  caseText : String := ""

/-- A source record as `build_record` reads it.  `pmc_id` is accessed by
subscript (required); everything else through `.get` with the defaults
shown. `yearKey` keeps presence information because the two `.get`
defaults for `year` differ (`""` in `source`, `"2023"` in `audit`). -/
structure SrcRecord where
  pmcId : String
  link : String := ""
  doi : String := ""
  pmid : String := ""
  title : String := ""
  authors : List PyVal := []
  journal : String := ""
  journalDetail : String := ""
  yearKey : Option String := none
  licenseKey : String := ""
  abstractText : String := ""
  keywords : List PyVal := []
  meshTerms : List PyVal := []
  cases : List SrcCase := []
  images : List SrcImage := []

/-- `pathlib.Path(file).suffix`: the extension of the last path
component, requiring a dot that is neither the component's first nor its
last character. -/
def pathSuffix (file : String) : String :=
  let name := (file.splitOn "/").getLastD ""
  let cs := name.toList
  let dotIdxs := (cs.enum.filter (fun p => p.2 == '.')).map (·.1)
  match dotIdxs.getLast? with
  | some i => if 0 < i ∧ i < cs.length - 1 then String.mk (cs.drop i) else ""
  | none => ""

/-- `Path(img.get("file", "")).suffix.lstrip(".") or "webp"` (both
builders' `file_type` field). -/
def fileTypeOf (file : String) : String :=
  let suf := String.mk ((pathSuffix file).toList.dropWhile (· == '.'))
  if suf = "" then "webp" else suf

/-- `normalise_view` of build_schema_dataset.py (lines 111-120):
`VIEW_MAP.get(v, "UNKNOWN")` with `None` mapped to `"UNKNOWN"`. -/
def normaliseView : Option String → String
  | some "frontal" => "PA"
  | some "sagittal" => "LATERAL"
  | some "axial" => "UNKNOWN"
  | some "oblique" => "UNKNOWN"
  | some _ => "UNKNOWN"
  | none => "UNKNOWN"

/-- `normalise_view` of transform_to_schema.py (lines 69-72): the map is
consulted on `v.lower()` and the fallback is `v.upper()`. -/
def normaliseViewT : Option String → String
  | none => "UNKNOWN"
  | some v =>
      match v.toLower with
      | "frontal" => "PA"
      | "sagittal" => "LATERAL"
      | "axial" => "UNKNOWN"
      | "oblique" => "UNKNOWN"
      | _ => v.toUpper

/-- `(case0.get("gender") or "unknown").lower()`. -/
def genderOf (rec : SrcRecord) : String :=
  match rec.cases.head? with
  | some c =>
      match c.gender with
      | some g => if g ≠ "" then g.toLower else "unknown"
      | none => "unknown"
  | none => "unknown"

/-- `case0.get("age")` with `case0 = cases[0] if cases else {}`. -/
def caseAgeOf (rec : SrcRecord) : PyVal :=
  match rec.cases.head? with
  | some c => c.age
  | none => .pynone

/-- `case0.get("case_text", "")`. -/
def caseTextOf (rec : SrcRecord) : String :=
  match rec.cases.head? with
  | some c => c.caseText
  | none => ""

/-- `first_cxr = cxr_imgs[0] if cxr_imgs else (images[0] if images else
{})` (build_record line 129); `none` stands for the empty dict. -/
def firstCxrOf (rec : SrcRecord) : Option SrcImage :=
  match (rec.images.filter (·.isChestXray)).head? with
  | some i => some i
  | none => rec.images.head?

/-- `first_cxr.get("radiology_view")`. -/
def firstCxrView (rec : SrcRecord) : Option String :=
  match firstCxrOf rec with
  | some i => i.radiologyView
  | none => none

/-- `first_cxr.get("radiology_region") or "chest"`. -/
def firstCxrRegion (rec : SrcRecord) : String :=
  match firstCxrOf rec with
  | some i =>
      match i.radiologyRegion with
      | some r => if r ≠ "" then r else "chest"
      | none => "chest"
  | none => "chest"

/-- The key `build_record` hashes for an image id (line 166):
`img.get("file_id", img.get("file", ""))` — the `file_id` value when that
key is present, else the `file` value. -/
def imageIdKeyB (img : SrcImage) : String :=
  img.fileIdKey.getD img.file

/-- One element of the `images` list built by `build_record`
(build_schema_dataset.py lines 164-180).  `u` is the
`uuid.uuid5(NAMESPACE_URL, ·)` oracle. -/
def buildImageEntryB (u : String → String) (img : SrcImage) :
    List (String × PyVal) :=
  [("image_id", .pystr (u (imageIdKeyB img))),
   ("local_image_path", .pystr img.localImagePath),
   ("file_type", .pystr (fileTypeOf img.file)),
   ("image_type", .pystr img.imageType),
   ("image_subtype", .pystr img.imageSubtype),
   ("is_chest_xray", .pybool img.isChestXray),
   ("view_position", .pystr (normaliseView img.radiologyView)),
   ("radiology_region", strOrNone img.radiologyRegion),
   ("caption", .pystr img.caption),
   ("text_references", .pylist img.textReferences),
   ("ml_labels", img.mlLabels),
   ("gt_labels", img.gtLabels)]

/-- `e.get("summary_1_2_lines") or rec.get("abstract", "")`. -/
def summaryLineOf (rec : SrcRecord) (e : List (String × PyVal)) : PyVal :=
  let s := dGet e "summary_1_2_lines"
  if pyTruthy s then s else .pystr rec.abstractText

/-- `build_record` (build_schema_dataset.py lines 123-259): the full
schema record assembled from the source record `rec` and the
Gemini-extracted dict `e`, with `uuid.uuid5(NAMESPACE_URL, ·)` as the
oracle `u`. -/
def buildRecord (u : String → String) (rec : SrcRecord)
    (e : List (String × PyVal)) : List (String × PyVal) :=
  [("case_id", .pystr (u rec.pmcId)),
   ("source", .pydict [
      ("dataset_name", .pystr "multicare"),
      ("dataset_record_id", .pystr rec.pmcId),
      ("pmc_link", .pystr rec.link),
      ("doi", .pystr rec.doi),
      ("pmid", .pystr rec.pmid),
      ("title", .pystr rec.title),
      ("authors", .pylist rec.authors),
      ("journal", .pystr rec.journal),
      ("journal_detail", .pystr rec.journalDetail),
      ("year", .pystr (rec.yearKey.getD "")),
      ("license", .pystr rec.licenseKey)]),
   ("patient_context", .pydict [
      ("age_years", caseAgeOf rec),
      ("sex", .pystr (genderOf rec)),
      ("immunocompromised", dGetD e "immunocompromised" (.pystr "unknown")),
      ("chief_complaint", dGet e "chief_complaint"),
      ("symptom_duration", dGet e "symptom_duration"),
      ("comorbidities", dGetD e "comorbidities" (.pylist [])),
      ("medications_used", dGet e "medications_used")]),
   ("study", .pydict [
      ("modality", .pystr "CXR"),
      ("view_position", .pystr (normaliseView (firstCxrView rec))),
      ("body_region", .pystr (firstCxrRegion rec))]),
   ("images", .pylist (rec.images.map (fun i => .pydict (buildImageEntryB u i)))),
   ("clinical_text", .pydict [
      ("raw_note", .pystr (caseTextOf rec)),
      ("structured_note", .pydict [
        ("hpi", dGet e "clinical_note_hpi"),
        ("pmh", dGet e "clinical_note_pmh"),
        ("meds", dGet e "clinical_note_meds"),
        ("allergies", dGet e "clinical_note_allergies")])]),
   ("radiology_labels", .pydict [
      ("primary_suspected", dGetD e "primary_suspected" (.pylist [])),
      ("differential", dGetD e "differential" (.pylist [])),
      ("urgency", dGetD e "urgency" (.pystr "routine")),
      ("infectious_concern", dGetD e "infectious_concern" (.pystr "unknown")),
      ("icu_candidate", dGetD e "icu_candidate" (.pystr "unknown"))]),
   ("findings_structured", .pydict [
      ("lungs", .pydict [
        ("consolidation", .pydict [
          ("present", dGetD e "lungs_consolidation_present" (.pystr "unknown")),
          ("location", dGetD e "lungs_consolidation_location" (.pylist [])),
          ("extent", dGetD e "lungs_consolidation_extent" (.pystr "unknown"))]),
        ("atelectasis", .pydict [
          ("present", dGetD e "lungs_atelectasis_present" (.pystr "unknown")),
          ("location", dGetD e "lungs_atelectasis_location" (.pylist []))]),
        ("edema", .pydict [
          ("present", dGetD e "lungs_edema_present" (.pystr "unknown")),
          ("pattern", dGetD e "lungs_edema_pattern" (.pystr "unknown"))])]),
      ("pleura", .pydict [
        ("effusion", .pydict [
          ("present", dGetD e "pleura_effusion_present" (.pystr "unknown")),
          ("side", dGetD e "pleura_effusion_side" (.pystr "unknown")),
          ("size", dGetD e "pleura_effusion_size" (.pystr "unknown"))]),
        ("pneumothorax", .pydict [
          ("present", dGetD e "pleura_pneumothorax_present" (.pystr "unknown")),
          ("side", dGetD e "pleura_pneumothorax_side" (.pystr "unknown"))])]),
      ("cardiomediastinal", .pydict [
        ("cardiomegaly", dGetD e "cardiomegaly" (.pystr "unknown")),
        ("mediastinal_widening", dGetD e "mediastinal_widening" (.pystr "unknown"))]),
      ("devices", .pydict [
        ("lines_tubes_present", dGetD e "lines_tubes_present" (.pystr "unknown")),
        ("device_list", dGetD e "device_list" (.pylist []))])]),
   ("text_outputs", .pydict [
      ("case_card", .pydict [
        ("summary_1_2_lines", summaryLineOf rec e),
        ("bullets", dGetD e "bullets" (.pylist [])),
        ("red_flags", dGetD e "red_flags" (.pylist [])),
        ("uncertainties", dGetD e "uncertainties" (.pylist []))])]),
   ("outcomes", .pydict [
      ("label_type", .pystr "real"),
      ("success", dGetD e "outcome_success" (.pystr "unknown")),
      ("outcome_detail", dGet e "outcome_detail"),
      ("ground_truth_diagnosis", dGet e "ground_truth_diagnosis"),
      ("ground_truth_source", dGetD e "ground_truth_source" (.pystr "case_text"))]),
   ("audit", .pydict [
      ("created_at", .pystr ((rec.yearKey.getD "2023") ++ "-01-01T00:00:00Z")),
      ("keywords", .pylist rec.keywords),
      ("mesh_terms", .pylist rec.meshTerms)])]

/-- The key `build_image_entry` (transform_to_schema.py line 77) hashes:
`img.get("file_id") or img.get("file") or ""` — a truthiness chain, so an
empty `file_id` value falls through to `file`. -/
def fileKeyT (img : SrcImage) : String :=
  if img.fileIdKey.getD "" ≠ "" then img.fileIdKey.getD ""
  else if img.file ≠ "" then img.file
  else ""

/-- `parse_label_list` (transform_to_schema.py lines 30-42); `lev` is the
`ast.literal_eval` oracle. -/
def parseLabelList (lev : String → Option PyVal) : PyVal → PyVal
  | .pynone => .pylist []
  | .pylist xs => .pylist xs
  | .pystr s =>
      match lev s with
      | some (.pylist xs) => .pylist xs
      | _ => .pylist []
  | _ => .pylist []

/-- `build_image_entry` (transform_to_schema.py lines 75-92), with
`uuid.uuid5(NAMESPACE_URL, ·)` as the oracle `u` and `ast.literal_eval`
as `lev`. -/
def buildImageEntryT (u : String → String) (lev : String → Option PyVal)
    (img : SrcImage) : List (String × PyVal) :=
  [("image_id", .pystr (u (fileKeyT img))),
   ("local_image_path", .pystr img.localImagePath),
   ("file_type", .pystr (fileTypeOf img.file)),
   ("image_type", .pystr img.imageType),
   ("image_subtype", .pystr img.imageSubtype),
   ("is_chest_xray", .pybool img.isChestXray),
   ("view_position", .pystr (normaliseViewT img.radiologyView)),
   ("radiology_region", strOrNone img.radiologyRegion),
   ("caption", .pystr img.caption),
   ("text_references", .pylist img.textReferences),
   ("ml_labels", parseLabelList lev img.mlLabels),
   ("gt_labels", parseLabelList lev img.gtLabels)]

/-- C10: identifiers are derived deterministically — `build_record` sets
`case_id = uuid5(NAMESPACE_URL, pmc_id)` and each `image_id =
uuid5(NAMESPACE_URL, file identifier)` (likewise `build_image_entry`), so
the ids depend only on those inputs and two runs over the same input
agree; and, with the uuid5 digest treated as collision-free (injective),
two records share a `case_id` exactly when they share a `pmc_id`. -/
theorem C10_ids_deterministic (u : String → String)
    (hu : Function.Injective u) (r₁ r₂ : SrcRecord)
    (e₁ e₂ : List (String × PyVal)) :
    (∀ rec e, dGet (buildRecord u rec e) "case_id" = .pystr (u rec.pmcId)) ∧
    (∀ rec rec' e e', rec.pmcId = rec'.pmcId →
        dGet (buildRecord u rec e) "case_id" =
          dGet (buildRecord u rec' e') "case_id") ∧
    (dGet (buildRecord u r₁ e₁) "case_id" =
        dGet (buildRecord u r₂ e₂) "case_id" ↔ r₁.pmcId = r₂.pmcId) ∧
    (∀ rec e, dGet (buildRecord u rec e) "images" =
        .pylist (rec.images.map (fun i => .pydict (buildImageEntryB u i)))) ∧
    (∀ img : SrcImage,
        dGet (buildImageEntryB u img) "image_id" =
          .pystr (u (imageIdKeyB img))) ∧
    (∀ (lev : String → Option PyVal) (img : SrcImage),
        dGet (buildImageEntryT u lev img) "image_id" =
          .pystr (u (fileKeyT img))) := by
  refine ⟨fun rec e => rfl, ?_, ?_, fun rec e => rfl, fun img => rfl,
    fun lev img => rfl⟩
  · intro rec rec' e e' h
    show PyVal.pystr (u rec.pmcId) = PyVal.pystr (u rec'.pmcId)
    rw [h]
  · constructor
    · intro h
      have h' : PyVal.pystr (u r₁.pmcId) = PyVal.pystr (u r₂.pmcId) := h
      injection h' with h''
      exact hu h''
    · intro h
      show PyVal.pystr (u r₁.pmcId) = PyVal.pystr (u r₂.pmcId)
      rw [h]

/-- C10 witness: with the identity as an (injective) stand-in for the
uuid5 oracle, a concrete record's `case_id` is the hash of its
`pmc_id`. -/
theorem C10_ids_deterministic_witness :
    dGet (buildRecord id { pmcId := "PMC123" } []) "case_id" =
      .pystr "PMC123" :=
  (C10_ids_deterministic id Function.injective_id { pmcId := "PMC123" }
    { pmcId := "PMC123" } [] []).1 { pmcId := "PMC123" } []

end CaseTwin
